import Mathlib

/-!
Verification development for the AI-DIGITAL-FOOTPRINT backend core:
entity aggregation (`app/nlp/pii_detector.py`), feature extraction and
risk scoring (`app/ml/risk_scorer.py`), the tiered recommendation
orchestration (`app/llm/llm_service.py`), the analysis route
(`app/api/routes/analysis.py`) and the configuration constants
(`app/core/config.py`).

Python floats are modelled as exact rationals; Python `round(x, 2)` is
modelled with Mathlib's `round` (half-up instead of Python's
half-to-even; the two agree except at exact midpoints, and every proof
below uses only monotonicity of rounding and its fixed points at
two-decimal values, on which both conventions agree).
-/

/-- Risk level enumeration (schemas.py `RiskLevel`). -/
inductive RiskLevel where
  | LOW
  | MEDIUM
  | HIGH
deriving DecidableEq, Repr

/-- Detected PII entity (schemas.py `PIIEntity`).  The Python field `end`
is a Lean keyword, so it is called `stop` here; the entity text is kept
as a character list since it is produced by slicing the input text. -/
structure PIIEntity where
  type : String
  text : List Char
  start : Nat
  stop : Nat
  confidence : ℚ
deriving DecidableEq, Repr

/-- Extracted features (schemas.py `Features`).  The six counters, the
text length and the keyword count are natural numbers (the pipeline only
ever produces counts); the density is a rational. -/
structure Features where
  num_emails : Nat
  num_phones : Nat
  num_locations : Nat
  num_persons : Nat
  num_organizations : Nat
  num_dates : Nat
  text_length : Nat
  entity_density : ℚ
  sensitive_keywords_count : Nat
deriving DecidableEq, Repr

/-- Risk scoring result (schemas.py `RiskScore`). -/
structure RiskScore where
  score : ℚ
  level : RiskLevel
  ml_probability : ℚ
  confidence : ℚ
deriving DecidableEq, Repr

/-- The pydantic field bounds of `RiskScore` (schemas.py lines 48-53):
`score ∈ [0,100]`, `ml_probability ∈ [0,1]`, `confidence ∈ [0,1]`. -/
def RiskScore.Valid (r : RiskScore) : Prop :=
  0 ≤ r.score ∧ r.score ≤ 100 ∧ 0 ≤ r.ml_probability ∧ r.ml_probability ≤ 1
    ∧ 0 ≤ r.confidence ∧ r.confidence ≤ 1

/-- Bucketed entity counts, the dictionary built by
`NLPService.extract_entity_counts`. -/
structure EntityCounts where
  num_emails : Nat
  num_phones : Nat
  num_locations : Nat
  num_persons : Nat
  num_organizations : Nat
  num_dates : Nat
  num_other : Nat
deriving DecidableEq, Repr

/-- config.py: `RISK_LOW_THRESHOLD: float = 0.3`. -/
def RISK_LOW_THRESHOLD : ℚ := 0.3

/-- config.py: `RISK_MEDIUM_THRESHOLD: float = 0.6`. -/
def RISK_MEDIUM_THRESHOLD : ℚ := 0.6

/-- config.py: `RISK_HIGH_THRESHOLD: float = 0.6` (never consulted by the
rule-based scorer). -/
def RISK_HIGH_THRESHOLD : ℚ := 0.6

/-- config.py: the `FEATURE_WEIGHTS` dictionary, as an association list. -/
def FEATURE_WEIGHTS : List (String × ℚ) :=
  [("num_emails", 0.15), ("num_phones", 0.15), ("num_locations", 0.10),
   ("num_persons", 0.12), ("num_organizations", 0.08), ("text_length", 0.05),
   ("entity_density", 0.20), ("sensitive_keywords", 0.15)]

/-- Python `weights.get(feature, 0.1)` on the weight dictionary. -/
def weightsGet (w : List (String × ℚ)) (k : String) : ℚ :=
  (w.lookup k).getD 0.1

/-- config.py: the `SENSITIVE_KEYWORDS` list. -/
def SENSITIVE_KEYWORDS : List String :=
  ["password", "ssn", "social security", "credit card",
   "bank account", "routing number", "passport",
   "license", "medical", "diagnosis", "therapy",
   "salary", "income", "address", "home", "live at"]

/-- Python `round(x, 2)`: round to the nearest multiple of 1/100 (see the
file header for the midpoint caveat). -/
def roundTo2 (x : ℚ) : ℚ := (round (x * 100) : ℤ) / 100

/-- The weighted sum of the normalized features under the default weight
table, exactly as §4.3 of the spec tabulates it (dates carry no weight
and do not appear, matching the code). -/
def weightedSum (f : Features) : ℚ :=
  min ((f.num_emails : ℚ) / 3) 1 * 0.15 + min ((f.num_phones : ℚ) / 2) 1 * 0.15
    + min ((f.num_locations : ℚ) / 5) 1 * 0.10 + min ((f.num_persons : ℚ) / 3) 1 * 0.12
    + min ((f.num_organizations : ℚ) / 3) 1 * 0.08 + min ((f.text_length : ℚ) / 1000) 1 * 0.05
    + min (f.entity_density * 100) 1 * 0.20 + min ((f.sensitive_keywords_count : ℚ) / 5) 1 * 0.15

/-- risk_scorer.py `MLService._rule_based_scoring`: normalize each feature
with its cap, accumulate `value * weights.get(feature, 0.1)` in the
dictionary's iteration order, clamp `score * 100` at 100, and pick the
level by comparing the *unscaled* accumulator with the two thresholds. -/
def rule_based_scoring (features : Features) : RiskScore :=
  let weights := FEATURE_WEIGHTS
  let n_emails := min ((features.num_emails : ℚ) / 3) 1
  let n_phones := min ((features.num_phones : ℚ) / 2) 1
  let n_locations := min ((features.num_locations : ℚ) / 5) 1
  let n_persons := min ((features.num_persons : ℚ) / 3) 1
  let n_organizations := min ((features.num_organizations : ℚ) / 3) 1
  let n_text_length := min ((features.text_length : ℚ) / 1000) 1
  let n_entity_density := min (features.entity_density * 100) 1
  let n_sensitive := min ((features.sensitive_keywords_count : ℚ) / 5) 1
  let score :=
    n_emails * weightsGet weights "num_emails" + n_phones * weightsGet weights "num_phones"
      + n_locations * weightsGet weights "num_locations"
      + n_persons * weightsGet weights "num_persons"
      + n_organizations * weightsGet weights "num_organizations"
      + n_text_length * weightsGet weights "text_length"
      + n_entity_density * weightsGet weights "entity_density"
      + n_sensitive * weightsGet weights "sensitive_keywords"
  let score_100 := min (score * 100) 100
  { score := roundTo2 score_100
    level :=
      if score < RISK_LOW_THRESHOLD then RiskLevel.LOW
      else if score < RISK_MEDIUM_THRESHOLD then RiskLevel.MEDIUM
      else RiskLevel.HIGH
    ml_probability := score
    confidence := 0.75 }

/-- Python substring primitive: does the second list begin with the first? -/
def leadsWith : List Char → List Char → Bool
  | [], _ => true
  | _ :: _, [] => false
  | a :: as, b :: bs => a == b && leadsWith as bs

/-- Python `needle in haystack` on strings, over the character lists. -/
def containsSeq (needle : List Char) : List Char → Bool
  | [] => needle.isEmpty
  | b :: bs => leadsWith needle (b :: bs) || containsSeq needle bs

/-- Python `str.upper()`, written over the character list so that it
evaluates by kernel reduction. -/
def pyUpper (s : String) : String := String.mk (s.toList.map Char.toUpper)

/-- Python `str.lower()`, written over the character list so that it
evaluates by kernel reduction. -/
def pyLower (s : String) : String := String.mk (s.toList.map Char.toLower)

/-- One step of `NLPService.extract_entity_counts`: classify one entity's
upper-cased type with the ordered rule list (first match wins). -/
def countEntity (counts : EntityCounts) (entity : PIIEntity) : EntityCounts :=
  let t := pyUpper entity.type
  if containsSeq "EMAIL".toList t.toList then
    { counts with num_emails := counts.num_emails + 1 }
  else if containsSeq "PHONE".toList t.toList then
    { counts with num_phones := counts.num_phones + 1 }
  else if ["LOCATION", "GPE", "LOC"].contains t then
    { counts with num_locations := counts.num_locations + 1 }
  else if t = "PERSON" then
    { counts with num_persons := counts.num_persons + 1 }
  else if ["ORGANIZATION", "ORG"].contains t then
    { counts with num_organizations := counts.num_organizations + 1 }
  else if t = "DATE" then
    { counts with num_dates := counts.num_dates + 1 }
  else
    { counts with num_other := counts.num_other + 1 }

/-- pii_detector.py `NLPService.extract_entity_counts`. -/
def extract_entity_counts (entities : List PIIEntity) : EntityCounts :=
  entities.foldl countEntity ⟨0, 0, 0, 0, 0, 0, 0⟩

/-- pii_detector.py `NLPService.detect_sensitive_keywords`: presence count
of the configured keywords in the lower-cased text. -/
def detect_sensitive_keywords (text : String) : Nat :=
  (SENSITIVE_KEYWORDS.filter (fun k => containsSeq k.toList (pyLower text).toList)).length

/-- Sum of every bucket of the counts dictionary, which is what Python's
`sum(entity_counts.values())` computes (the "other" bucket included). -/
def EntityCounts.totalAll (c : EntityCounts) : Nat :=
  c.num_emails + c.num_phones + c.num_locations + c.num_persons
    + c.num_organizations + c.num_dates + c.num_other

/-- Modelled from the spec: the spec's `totalEntityCount`, "the sum of all
bucket counts excluding `other`" — the quantity the spec claims feeds the
entity density. -/
def EntityCounts.totalNonOther (c : EntityCounts) : Nat :=
  c.num_emails + c.num_phones + c.num_locations + c.num_persons
    + c.num_organizations + c.num_dates

/-- risk_scorer.py `MLService.extract_features`. -/
def extract_features (text : String) (entity_counts : EntityCounts)
    (sensitive_keywords : Nat) : Features :=
  let text_length := text.length
  let total_entities := entity_counts.totalAll
  let entity_density : ℚ :=
    if 0 < text_length then (total_entities : ℚ) / (text_length : ℚ) else 0
  { num_emails := entity_counts.num_emails
    num_phones := entity_counts.num_phones
    num_locations := entity_counts.num_locations
    num_persons := entity_counts.num_persons
    num_organizations := entity_counts.num_organizations
    num_dates := entity_counts.num_dates
    text_length := text_length
    entity_density := entity_density
    sensitive_keywords_count := sensitive_keywords }

/-- The classifier artifact contract (spec §6): a 3-class classifier with
`predict` and `predict_proba`, consumed as an opaque pair of functions. -/
structure TrainedModel where
  predict : List ℚ → Fin 3
  predict_proba : List ℚ → ℚ × ℚ × ℚ

/-- The raw 9-dimensional feature array built in `_ml_based_scoring`. -/
def featureArray (f : Features) : List ℚ :=
  [(f.num_emails : ℚ), (f.num_phones : ℚ), (f.num_locations : ℚ), (f.num_persons : ℚ),
   (f.num_organizations : ℚ), (f.num_dates : ℚ), (f.text_length : ℚ), f.entity_density,
   (f.sensitive_keywords_count : ℚ)]

/-- Python `if self.scaler: feature_array = self.scaler.transform(...)`. -/
def scaledArray (scaler : Option (List ℚ → List ℚ)) (f : Features) : List ℚ :=
  match scaler with
  | some s => s (featureArray f)
  | none => featureArray f

/-- Python `risk_levels = [RiskLevel.LOW, RiskLevel.MEDIUM, RiskLevel.HIGH]`
indexed by the predicted class. -/
def levelOfIndex : Fin 3 → RiskLevel
  | 0 => RiskLevel.LOW
  | 1 => RiskLevel.MEDIUM
  | 2 => RiskLevel.HIGH

/-- Python `probabilities[prediction]`. -/
def probAt (p : ℚ × ℚ × ℚ) : Fin 3 → ℚ
  | 0 => p.1
  | 1 => p.2.1
  | 2 => p.2.2

/-- risk_scorer.py `MLService._ml_based_scoring`. -/
def ml_based_scoring (scaler : Option (List ℚ → List ℚ)) (model : TrainedModel)
    (features : Features) : RiskScore :=
  let feature_array := scaledArray scaler features
  let prediction := model.predict feature_array
  let probabilities := model.predict_proba feature_array
  let level := levelOfIndex prediction
  let ml_probability := probAt probabilities prediction
  let score_100 := probabilities.1 * 25 + probabilities.2.1 * 60 + probabilities.2.2 * 100
  { score := roundTo2 score_100
    level := level
    ml_probability := ml_probability
    confidence := ml_probability }

/-- The mutable fields of risk_scorer.py `MLService` that scoring reads. -/
structure MLState where
  model : Option TrainedModel
  scaler : Option (List ℚ → List ℚ)
  model_type : String

/-- risk_scorer.py `MLService._initialize`: `loaded = some (model, scaler)`
is the successful `joblib.load` of both artifacts; `none` covers both a
missing artifact and a load exception, and takes the
`_initialize_default_model` branch (`model = None`,
`model_type = "rule_based"`; the unfitted default `StandardScaler` is
never consulted, modelled as `none`). -/
def loadModelState (loaded : Option (TrainedModel × (List ℚ → List ℚ))) : MLState :=
  match loaded with
  | some (m, s) => { model := some m, scaler := some s, model_type := "trained" }
  | none => { model := none, scaler := none, model_type := "rule_based" }

/-- risk_scorer.py `MLService.calculate_risk_score`: Python
`if self.model and self.model_type == "trained"`. -/
def calculate_risk_score (state : MLState) (features : Features) : RiskScore :=
  match state.model with
  | some m =>
    if state.model_type = "trained" then ml_based_scoring state.scaler m features
    else rule_based_scoring features
  | none => rule_based_scoring features

/-- One scoring call as a state transition: the method body of
`calculate_risk_score` assigns no attribute on `self`, so the state is
returned unchanged. -/
def calcStep (state : MLState) (features : Features) : RiskScore × MLState :=
  (calculate_risk_score state features, state)

/-- A whole process lifetime of scoring calls, threading the service state
through every call. -/
def runCalls (state : MLState) : List Features → List RiskScore × MLState
  | [] => ([], state)
  | f :: fs =>
    let step := calcStep state f
    let rest := runCalls step.2 fs
    (step.1 :: rest.1, rest.2)

/-- One Presidio analyzer result (Backend A). -/
structure PresidioResult where
  entity_type : String
  start : Nat
  stop : Nat
  score : ℚ
deriving DecidableEq, Repr

/-- One spaCy named entity (Backend B). -/
structure SpacyEnt where
  label : String
  text : List Char
  start_char : Nat
  end_char : Nat
deriving DecidableEq, Repr

/-- Python `text[a:b]`. -/
def sliceText (text : List Char) (a b : Nat) : List Char :=
  (text.drop a).take (b - a)

/-- pii_detector.py `detect_pii`, Presidio loop: append each result whose
`(start, end)` span is unseen, marking it seen. -/
def addPresidio (text : List Char) :
    List PresidioResult → List (Nat × Nat) → List PIIEntity × List (Nat × Nat)
  | [], seen => ([], seen)
  | r :: rs, seen =>
    if (r.start, r.stop) ∈ seen then addPresidio text rs seen
    else
      let e : PIIEntity := ⟨r.entity_type, sliceText text r.start r.stop, r.start, r.stop, r.score⟩
      let rest := addPresidio text rs ((r.start, r.stop) :: seen)
      (e :: rest.1, rest.2)

/-- pii_detector.py `detect_pii`, spaCy loop: keep entities with an unseen
span and an allow-listed label, at the fixed confidence 0.85. -/
def addSpacy : List SpacyEnt → List (Nat × Nat) → List PIIEntity × List (Nat × Nat)
  | [], seen => ([], seen)
  | e :: es, seen =>
    if (e.start_char, e.end_char) ∉ seen
        ∧ ["PERSON", "GPE", "LOC", "ORG", "DATE"].contains e.label then
      let ent : PIIEntity := ⟨e.label, e.text, e.start_char, e.end_char, 0.85⟩
      let rest := addSpacy es ((e.start_char, e.end_char) :: seen)
      (ent :: rest.1, rest.2)
    else addSpacy es seen

/-- The combined entity list before the final sort: Presidio results first
(the analyzer may be absent, modelled by `none`), then the spaCy results
filtered against the spans Presidio already claimed. -/
def combined_entities (text : List Char) (presidio : Option (List PresidioResult))
    (spacy : Option (List SpacyEnt)) : List PIIEntity :=
  let p := match presidio with
    | some rs => addPresidio text rs []
    | none => ([], [])
  let s := match spacy with
    | some es => addSpacy es p.2
    | none => ([], p.2)
  p.1 ++ s.1

/-- The sort key of `entities.sort(key=lambda x: x.start)`. -/
def startLE (a b : PIIEntity) : Prop := a.start ≤ b.start

instance : DecidableRel startLE := fun a b => Nat.decLe a.start b.start

instance : IsTotal PIIEntity startLE := ⟨fun a b => Nat.le_total a.start b.start⟩

instance : IsTrans PIIEntity startLE := ⟨fun _ _ _ h1 h2 => Nat.le_trans h1 h2⟩

/-- pii_detector.py `NLPService.detect_pii`: combine both backends, then
sort by start position; Python's `list.sort` is stable, modelled by
insertion sort. -/
def detect_pii (text : List Char) (presidio : Option (List PresidioResult))
    (spacy : Option (List SpacyEnt)) : List PIIEntity :=
  List.insertionSort startLE (combined_entities text presidio spacy)

/-- The characters Python strips in `line.lstrip('0123456789.-•) ')`. -/
def markerChars : List Char :=
  ['0', '1', '2', '3', '4', '5', '6', '7', '8', '9', '.', '-', '•', ')', ' ']

/-- Python `lstrip` over a fixed character set. -/
def lstripChars (cs : List Char) : List Char → List Char
  | [] => []
  | c :: t => if c ∈ cs then lstripChars cs t else c :: t

/-- The default whitespace set of Python `str.strip()` (restricted to the
ASCII whitespace characters, which are the only ones appearing here). -/
def PY_WHITESPACE : List Char := [' ', '\t', '\n', '\r', '\x0b', '\x0c']

/-- Drop leading Python whitespace. -/
def dropLeadingSpace : List Char → List Char
  | [] => []
  | c :: t => if c ∈ PY_WHITESPACE then dropLeadingSpace t else c :: t

/-- Python `str.strip()` over the character list (Lean's `String.trim`
does not evaluate by kernel reduction, so the strip is spelled out). -/
def pyStripChars (l : List Char) : List Char :=
  (dropLeadingSpace (dropLeadingSpace l).reverse).reverse

/-- Python `str.split('\n')` over the character list: split at every
newline, keeping empty pieces (so the empty string yields one piece). -/
def splitNl : List Char → List (List Char)
  | [] => [[]]
  | c :: t =>
    let rest := splitNl t
    if c == '\n' then [] :: rest
    else
      match rest with
      | [] => [[c]]
      | h :: r => (c :: h) :: r

/-- llm_service.py `LLMService._parse_recommendations`: strip, split into
lines, keep lines starting with a digit, a dash or a bullet, strip the
leading marker, drop lines that became empty, cap at 5. -/
def parse_recommendations (llm_response : String) : List String :=
  let lines := splitNl (pyStripChars llm_response.toList)
  let recommendations := lines.filterMap fun l =>
    let line := pyStripChars l
    match line with
    | [] => none
    | c :: _ =>
      if c.isDigit || c == '-' || c == '•' then
        let clean := pyStripChars (lstripChars markerChars line)
        if clean.isEmpty then none else some (String.mk clean)
      else none
  recommendations.take 5

/-- llm_service.py `LLMService._fallback_recommendations`: the static
tier, keyed on which entity categories are present. -/
def fallback_recommendations (pii_entities : List PIIEntity) (risk_level : RiskLevel) :
    List String :=
  let entity_types := pii_entities.map (fun e => e.type)
  let recommendations :=
    (if entity_types.contains "EMAIL_ADDRESS" || entity_types.contains "PHONE_NUMBER" then
      ["Remove or hide direct contact information. Use platform messaging instead."]
    else [])
    ++ (if entity_types.contains "PERSON" then
      ["Avoid using full real names. Use initials or usernames instead."]
    else [])
    ++ (if entity_types.contains "LOCATION" || entity_types.contains "GPE" then
      ["Replace specific locations with general areas (e.g., \x27New York\x27 instead of full address)."]
    else [])
    ++ (if entity_types.contains "DATE" then
      ["Generalize specific dates to protect timing information."]
    else [])
    ++ (if risk_level = RiskLevel.HIGH then
      ["⚠️ HIGH RISK: Consider not sharing this information publicly at all."]
    else [])
  if recommendations.isEmpty then
    ["Your text appears relatively safe. Continue being mindful of personal details."]
  else recommendations

/-- Outcomes of the two generative providers for one call.
`geminiConfigured` is Python's `genai is not None and settings.GEMINI_API_KEY`;
`geminiResponse = none` means the call raised (caught by the tier), and
`some t` a returned text (`response.text or ""` already coalesced).
`openaiAvailable` is `self.enabled and self.llm is not None`, and
`openaiResponse` likewise distinguishes an exception from a returned
content string. -/
structure LLMOutcomes where
  geminiConfigured : Bool
  geminiResponse : Option String
  openaiAvailable : Bool
  openaiResponse : Option String

/-- The Gemini tier of `generate_recommendations`: it produces a parsed
list only when the provider is configured, the call did not raise, and
the stripped response is non-empty; any other outcome falls through. -/
def geminiTier (outcomes : LLMOutcomes) : Option (List String) :=
  if outcomes.geminiConfigured then
    match outcomes.geminiResponse with
    | some t =>
      if (pyStripChars t.toList).isEmpty then none
      else some (parse_recommendations (String.mk (pyStripChars t.toList)))
    | none => none
  else none

/-- llm_service.py `LLMService.generate_recommendations`: Gemini tier,
then OpenAI tier (whose parsed result is returned even when empty), then
the static fallback.  The prompts sent to the providers do not influence
the control flow and are omitted. -/
def generate_recommendations (outcomes : LLMOutcomes) (_text : String)
    (pii_entities : List PIIEntity) (risk_level : RiskLevel) : List String :=
  match geminiTier outcomes with
  | some r => r
  | none =>
    if outcomes.openaiAvailable then
      match outcomes.openaiResponse with
      | some content => parse_recommendations content
      | none => fallback_recommendations pii_entities risk_level
    else fallback_recommendations pii_entities risk_level

/-- analysis.py `AnalyzeTextRequest` (the fields the pipeline reads). -/
structure AnalyzeTextRequest where
  text : String
  include_recommendations : Bool
  include_rewrite : Bool

/-- The pipeline-relevant fields of analysis.py `AnalysisResult`. -/
structure AnalysisOutcome where
  pii_entities : List PIIEntity
  features : Features
  risk_score : RiskScore
  recommendations : List String
  safe_rewrite : Option String
deriving Repr

/-- analysis.py `analyze_text` (steps 1-4): detection, feature
extraction, scoring, then the optional recommendation and rewrite calls.
The rewrite body is irrelevant to the route's control flow and is passed
in as `rewriteFn` (the route calls `llm_service.rewrite_text_safely`,
which returns a string on every path). -/
def analyze_text (outcomes : LLMOutcomes) (rewriteFn : String → List PIIEntity → String)
    (state : MLState) (presidio : Option (List PresidioResult))
    (spacy : Option (List SpacyEnt)) (request : AnalyzeTextRequest) : AnalysisOutcome :=
  let pii_entities := detect_pii request.text.toList presidio spacy
  let entity_counts := extract_entity_counts pii_entities
  let sensitive_keywords := detect_sensitive_keywords request.text
  let features := extract_features request.text entity_counts sensitive_keywords
  let risk_score := calculate_risk_score state features
  let recommendations :=
    if request.include_recommendations then
      generate_recommendations outcomes request.text pii_entities risk_score.level
    else []
  let safe_rewrite :=
    if request.include_rewrite && decide (0 < pii_entities.length) then
      some (rewriteFn request.text pii_entities)
    else none
  { pii_entities := pii_entities
    features := features
    risk_score := risk_score
    recommendations := recommendations
    safe_rewrite := safe_rewrite }

/-- The classifier-artifact probability contract (spec §6): the 3-way
class-probability vector returned for the (scaled) feature array is
nonnegative and sums to 1. -/
abbrev ProbContract (scaler : Option (List ℚ → List ℚ)) (model : TrainedModel)
    (f : Features) : Prop :=
  let p := model.predict_proba (scaledArray scaler f)
  0 ≤ p.1 ∧ 0 ≤ p.2.1 ∧ 0 ≤ p.2.2 ∧ p.1 + p.2.1 + p.2.2 = 1

/-- The all-zero feature vector, used as a concrete evaluation point. -/
def zeroFeatures : Features := ⟨0, 0, 0, 0, 0, 0, 0, 0, 0⟩

/-- A concrete classifier that always answers LOW with certainty, used as
a concrete evaluation point satisfying the probability contract. -/
def trivialModel : TrainedModel := ⟨fun _ => 0, fun _ => (1, 0, 0)⟩

theorem roundTo2_mono {x y : ℚ} (h : x ≤ y) : roundTo2 x ≤ roundTo2 y := by
  unfold roundTo2
  have hr : round (x * 100) ≤ round (y * 100) := by
    rw [round_eq, round_eq]
    exact Int.floor_mono (by linarith)
  have hc : ((round (x * 100) : ℤ) : ℚ) ≤ ((round (y * 100) : ℤ) : ℚ) := by
    exact_mod_cast hr
  linarith

theorem roundTo2_intMul (n : ℤ) : roundTo2 (n : ℚ) = n := by
  unfold roundTo2
  have h : ((n : ℚ) * 100) = ((n * 100 : ℤ) : ℚ) := by push_cast; ring
  rw [h, round_intCast]
  push_cast
  field_simp

theorem intCast_le_roundTo2 {n : ℤ} {x : ℚ} (h : (n : ℚ) ≤ x) : (n : ℚ) ≤ roundTo2 x := by
  have hm := roundTo2_mono h
  rwa [roundTo2_intMul] at hm

theorem roundTo2_le_intCast {n : ℤ} {x : ℚ} (h : x ≤ (n : ℚ)) : roundTo2 x ≤ (n : ℚ) := by
  have hm := roundTo2_mono h
  rwa [roundTo2_intMul] at hm

theorem rule_based_score_eq_weightedSum (f : Features) :
    (rule_based_scoring f).ml_probability = weightedSum f := rfl

theorem rule_based_level (f : Features) :
    (rule_based_scoring f).level
      = (if weightedSum f < RISK_LOW_THRESHOLD then RiskLevel.LOW
        else if weightedSum f < RISK_MEDIUM_THRESHOLD then RiskLevel.MEDIUM
        else RiskLevel.HIGH) := rfl

theorem weightedSum_le_one (f : Features) : weightedSum f ≤ 1 := by
  unfold weightedSum
  have h1 : min ((f.num_emails : ℚ) / 3) 1 ≤ 1 := min_le_right _ _
  have h2 : min ((f.num_phones : ℚ) / 2) 1 ≤ 1 := min_le_right _ _
  have h3 : min ((f.num_locations : ℚ) / 5) 1 ≤ 1 := min_le_right _ _
  have h4 : min ((f.num_persons : ℚ) / 3) 1 ≤ 1 := min_le_right _ _
  have h5 : min ((f.num_organizations : ℚ) / 3) 1 ≤ 1 := min_le_right _ _
  have h6 : min ((f.text_length : ℚ) / 1000) 1 ≤ 1 := min_le_right _ _
  have h7 : min (f.entity_density * 100) 1 ≤ 1 := min_le_right _ _
  have h8 : min ((f.sensitive_keywords_count : ℚ) / 5) 1 ≤ 1 := min_le_right _ _
  nlinarith [h1, h2, h3, h4, h5, h6, h7, h8]

theorem weightedSum_nonneg (f : Features) (hd : 0 ≤ f.entity_density) : 0 ≤ weightedSum f := by
  unfold weightedSum
  have h1 : (0 : ℚ) ≤ min ((f.num_emails : ℚ) / 3) 1 := le_min (by positivity) (by norm_num)
  have h2 : (0 : ℚ) ≤ min ((f.num_phones : ℚ) / 2) 1 := le_min (by positivity) (by norm_num)
  have h3 : (0 : ℚ) ≤ min ((f.num_locations : ℚ) / 5) 1 := le_min (by positivity) (by norm_num)
  have h4 : (0 : ℚ) ≤ min ((f.num_persons : ℚ) / 3) 1 := le_min (by positivity) (by norm_num)
  have h5 : (0 : ℚ) ≤ min ((f.num_organizations : ℚ) / 3) 1 :=
    le_min (by positivity) (by norm_num)
  have h6 : (0 : ℚ) ≤ min ((f.text_length : ℚ) / 1000) 1 := le_min (by positivity) (by norm_num)
  have h7 : (0 : ℚ) ≤ min (f.entity_density * 100) 1 :=
    le_min (by nlinarith) (by norm_num)
  have h8 : (0 : ℚ) ≤ min ((f.sensitive_keywords_count : ℚ) / 5) 1 :=
    le_min (by positivity) (by norm_num)
  nlinarith [h1, h2, h3, h4, h5, h6, h7, h8]

theorem filter_orderedInsert (s : Nat) (a : PIIEntity) (l : List PIIEntity) :
    (List.orderedInsert startLE a l).filter (fun e => e.start == s)
      = if a.start == s then a :: l.filter (fun e => e.start == s)
        else l.filter (fun e => e.start == s) := by
  induction l with
  | nil => simp [List.filter_cons]
  | cons b t ih =>
    rcases Decidable.em (startLE a b) with hab | hab
    · rw [List.orderedInsert, if_pos hab]
      by_cases has : a.start == s <;> simp [List.filter_cons, has]
    · rw [List.orderedInsert, if_neg hab]
      rw [List.filter_cons, List.filter_cons]
      by_cases hbs : b.start == s
      · by_cases has : a.start == s
        · exfalso
          have hb : b.start = s := by simpa using hbs
          have ha : a.start = s := by simpa using has
          exact hab (by simp [startLE, ha, hb])
        · simp [hbs, has, ih]
      · by_cases has : a.start == s <;> simp [hbs, has, ih]

theorem filter_insertionSort (s : Nat) (l : List PIIEntity) :
    (List.insertionSort startLE l).filter (fun e => e.start == s)
      = l.filter (fun e => e.start == s) := by
  induction l with
  | nil => simp
  | cons a t ih =>
    rw [List.insertionSort, filter_orderedInsert, ih, List.filter_cons]

theorem parse_recommendations_le_five (s : String) :
    (parse_recommendations s).length ≤ 5 := by
  unfold parse_recommendations
  rw [List.length_take]
  exact Nat.min_le_left _ _

theorem length_branch {p : Prop} [Decidable p] (x : String) :
    (if p then [x] else []).length ≤ 1 := by
  split <;> simp

theorem fallback_recommendations_length (pii_entities : List PIIEntity)
    (risk_level : RiskLevel) :
    1 ≤ (fallback_recommendations pii_entities risk_level).length
      ∧ (fallback_recommendations pii_entities risk_level).length ≤ 5 := by
  suffices key : ∀ l1 l2 l3 l4 l5 : List String,
      l1.length ≤ 1 → l2.length ≤ 1 → l3.length ≤ 1 → l4.length ≤ 1 → l5.length ≤ 1 →
      1 ≤ (if (l1 ++ l2 ++ l3 ++ l4 ++ l5).isEmpty then
            ["Your text appears relatively safe. Continue being mindful of personal details."]
          else l1 ++ l2 ++ l3 ++ l4 ++ l5).length
        ∧ (if (l1 ++ l2 ++ l3 ++ l4 ++ l5).isEmpty then
            ["Your text appears relatively safe. Continue being mindful of personal details."]
          else l1 ++ l2 ++ l3 ++ l4 ++ l5).length ≤ 5 by
    simp only [fallback_recommendations]
    apply key <;> exact length_branch _
  intro l1 l2 l3 l4 l5 h1 h2 h3 h4 h5
  constructor
  · split
    · simp
    · next h =>
      have hnil : l1 ++ l2 ++ l3 ++ l4 ++ l5 ≠ [] := fun hn => h (by rw [hn]; rfl)
      exact List.length_pos.mpr hnil
  · split
    · simp
    · simp only [List.length_append]
      omega

theorem geminiTier_length {outcomes : LLMOutcomes} {l : List String}
    (h : geminiTier outcomes = some l) : l.length ≤ 5 := by
  unfold geminiTier at h
  split at h
  · split at h
    · split at h
      · exact absurd h (by simp)
      · obtain rfl : parse_recommendations _ = l := Option.some.inj h
        exact parse_recommendations_le_five _
    · exact absurd h (by simp)
  · exact absurd h (by simp)

/-- C1 counterexample: the claim derives the level from the scaled score
`min(weightedSum * 100, 100)`.  For the feature vector with three emails
and nothing else, the weighted sum is 0.15, the scaled score is 15, and
the claim's rule (15 is not below either threshold) demands HIGH, while
the code compares the unscaled 0.15 with the thresholds and returns LOW. -/
theorem c1_counterexample :
    ¬ ((rule_based_scoring ⟨3, 0, 0, 0, 0, 0, 0, 0, 0⟩).level
        = (if min (weightedSum ⟨3, 0, 0, 0, 0, 0, 0, 0, 0⟩ * 100) 100 < RISK_LOW_THRESHOLD then
            RiskLevel.LOW
          else if min (weightedSum ⟨3, 0, 0, 0, 0, 0, 0, 0, 0⟩ * 100) 100
              < RISK_MEDIUM_THRESHOLD then
            RiskLevel.MEDIUM
          else RiskLevel.HIGH)) := by
  have hw : weightedSum ⟨3, 0, 0, 0, 0, 0, 0, 0, 0⟩ = 0.15 := by
    norm_num [weightedSum, min_def]
  rw [rule_based_level, hw]
  norm_num [RISK_LOW_THRESHOLD, RISK_MEDIUM_THRESHOLD, min_def]
  exact fun h => RiskLevel.noConfusion h

/-- C1 (amended): in rule-based mode, the level is chosen by comparing the
pre-scaling weighted sum (not the scaled score) against the thresholds;
the score field is `min(weightedSum * 100, 100)` rounded to two decimals,
the probability equals the pre-scaling weighted sum, and the confidence
equals 0.75. -/
theorem c1_rule_based_contract (f : Features) :
    (rule_based_scoring f).level
      = (if weightedSum f < RISK_LOW_THRESHOLD then RiskLevel.LOW
        else if weightedSum f < RISK_MEDIUM_THRESHOLD then RiskLevel.MEDIUM
        else RiskLevel.HIGH)
    ∧ (rule_based_scoring f).score = roundTo2 (min (weightedSum f * 100) 100)
    ∧ (rule_based_scoring f).ml_probability = weightedSum f
    ∧ (rule_based_scoring f).confidence = 0.75 :=
  ⟨rfl, rfl, rfl, rfl⟩

/-- C2 counterexample: for a single entity of type URL (classified into
the "other" bucket) in a 10-character text, the code computes density
1/10 (it sums every bucket, `sum(entity_counts.values())`), while the
claim's formula (sum excluding "other", here 0, divided by the length)
gives 0. -/
theorem c2_counterexample :
    (extract_features "abcdefghij"
        (extract_entity_counts [⟨"URL", "u".toList, 0, 1, 1⟩]) 0).entity_density
      ≠ ((extract_entity_counts [⟨"URL", "u".toList, 0, 1, 1⟩]).totalNonOther : ℚ)
          / (("abcdefghij" : String).length : ℚ) := by
  have hc : extract_entity_counts [⟨"URL", "u".toList, 0, 1, 1⟩] = ⟨0, 0, 0, 0, 0, 0, 1⟩ := by
    decide
  have hl : ("abcdefghij" : String).length = 10 := rfl
  rw [hc]
  simp only [extract_features, EntityCounts.totalAll, EntityCounts.totalNonOther, hl]
  norm_num

/-- C2 (amended): the entity density equals the sum of all bucket counts
including the "other" bucket divided by the text length when the length
is positive, and 0 when the length is 0, regardless of entity counts. -/
theorem c2_entity_density_all_buckets (text : String) (counts : EntityCounts) (k : Nat) :
    (extract_features text counts k).entity_density
      = if 0 < text.length then
          ((counts.totalNonOther : ℚ) + (counts.num_other : ℚ)) / (text.length : ℚ)
        else 0 := by
  show (if 0 < text.length then ((counts.totalAll : ℚ)) / (text.length : ℚ) else 0) = _
  have h : (counts.totalAll : ℚ) = (counts.totalNonOther : ℚ) + (counts.num_other : ℚ) := by
    unfold EntityCounts.totalAll EntityCounts.totalNonOther
    push_cast
    ring
  rw [h]

/-- C3 counterexample: with three emails, two phones and five sensitive
keywords the weighted sum is 0.45, which lies between the LOW threshold
0.3 and the MEDIUM threshold 0.6, so the scorer returns MEDIUM even
though the reference configuration sets the MEDIUM and HIGH thresholds to
the same 0.6 — the claim that no feature vector yields MEDIUM is false. -/
theorem c3_counterexample :
    (rule_based_scoring ⟨3, 2, 0, 0, 0, 0, 0, 0, 5⟩).level = RiskLevel.MEDIUM
    ∧ RISK_MEDIUM_THRESHOLD = RISK_HIGH_THRESHOLD := by
  constructor
  · have hw : weightedSum ⟨3, 2, 0, 0, 0, 0, 0, 0, 5⟩ = 0.45 := by
      norm_num [weightedSum, min_def]
    rw [rule_based_level, hw]
    norm_num [RISK_LOW_THRESHOLD, RISK_MEDIUM_THRESHOLD]
  · norm_num [RISK_MEDIUM_THRESHOLD, RISK_HIGH_THRESHOLD]

/-- C3 (amended): although the reference configuration sets the MEDIUM and
HIGH thresholds to the identical 0.6, the rule-based scorer never consults
the HIGH threshold (it compares the weighted sum with the LOW and MEDIUM
thresholds only) and remains three-state: feature vectors attaining each
of LOW, MEDIUM and HIGH exist. -/
theorem c3_all_three_levels_attainable :
    (∃ f : Features, (rule_based_scoring f).level = RiskLevel.LOW)
    ∧ (∃ f : Features, (rule_based_scoring f).level = RiskLevel.MEDIUM)
    ∧ (∃ f : Features, (rule_based_scoring f).level = RiskLevel.HIGH)
    ∧ RISK_MEDIUM_THRESHOLD = RISK_HIGH_THRESHOLD := by
  refine ⟨⟨⟨0, 0, 0, 0, 0, 0, 0, 0, 0⟩, ?_⟩, ⟨⟨3, 2, 0, 0, 0, 0, 0, 0, 5⟩, ?_⟩,
    ⟨⟨3, 2, 5, 3, 3, 0, 1000, 1, 5⟩, ?_⟩, ?_⟩
  · have hw : weightedSum ⟨0, 0, 0, 0, 0, 0, 0, 0, 0⟩ = 0 := by
      norm_num [weightedSum, min_def]
    rw [rule_based_level, hw]
    norm_num [RISK_LOW_THRESHOLD]
  · have hw : weightedSum ⟨3, 2, 0, 0, 0, 0, 0, 0, 5⟩ = 0.45 := by
      norm_num [weightedSum, min_def]
    rw [rule_based_level, hw]
    norm_num [RISK_LOW_THRESHOLD, RISK_MEDIUM_THRESHOLD]
  · have hw : weightedSum ⟨3, 2, 5, 3, 3, 0, 1000, 1, 5⟩ = 1 := by
      norm_num [weightedSum, min_def]
    rw [rule_based_level, hw]
    norm_num [RISK_LOW_THRESHOLD, RISK_MEDIUM_THRESHOLD]
  · norm_num [RISK_MEDIUM_THRESHOLD, RISK_HIGH_THRESHOLD]

/-- C4: the score of the returned RiskScore lies in [0,100]: in rule-based
mode for every feature vector (whose density, being a quotient of counts,
is nonnegative), and in trained-classifier mode under the artifact
contract that the 3-way probability vector is nonnegative and sums to 1. -/
theorem c4_score_bounds :
    (∀ f : Features, 0 ≤ f.entity_density →
      0 ≤ (rule_based_scoring f).score ∧ (rule_based_scoring f).score ≤ 100)
    ∧ ∀ (scaler : Option (List ℚ → List ℚ)) (model : TrainedModel) (f : Features),
        ProbContract scaler model f →
        0 ≤ (ml_based_scoring scaler model f).score
          ∧ (ml_based_scoring scaler model f).score ≤ 100 := by
  constructor
  · intro f hd
    have h0 := weightedSum_nonneg f hd
    have h1 := weightedSum_le_one f
    have hs : (rule_based_scoring f).score = roundTo2 (min (weightedSum f * 100) 100) := rfl
    rw [hs]
    constructor
    · have hmin : (0 : ℚ) ≤ min (weightedSum f * 100) 100 := le_min (by linarith) (by norm_num)
      have := intCast_le_roundTo2 (n := 0) (by exact_mod_cast hmin)
      simpa using this
    · have hmin : min (weightedSum f * 100) 100 ≤ (100 : ℚ) := min_le_right _ _
      have := roundTo2_le_intCast (n := 100) (by exact_mod_cast hmin)
      simpa using this
  · intro scaler model f hp
    obtain ⟨hp0, hp1, hp2, hsum⟩ := hp
    have hs : (ml_based_scoring scaler model f).score
        = roundTo2 ((model.predict_proba (scaledArray scaler f)).1 * 25
            + (model.predict_proba (scaledArray scaler f)).2.1 * 60
            + (model.predict_proba (scaledArray scaler f)).2.2 * 100) := rfl
    rw [hs]
    constructor
    · have hblend : (0 : ℚ) ≤ (model.predict_proba (scaledArray scaler f)).1 * 25
          + (model.predict_proba (scaledArray scaler f)).2.1 * 60
          + (model.predict_proba (scaledArray scaler f)).2.2 * 100 := by nlinarith
      have := intCast_le_roundTo2 (n := 0) (by exact_mod_cast hblend)
      simpa using this
    · have hblend : (model.predict_proba (scaledArray scaler f)).1 * 25
          + (model.predict_proba (scaledArray scaler f)).2.1 * 60
          + (model.predict_proba (scaledArray scaler f)).2.2 * 100 ≤ (100 : ℚ) := by nlinarith
      have := roundTo2_le_intCast (n := 100) (by exact_mod_cast hblend)
      simpa using this

/-- C4 witness: the bounds evaluated at the all-zero feature vector and at
a concrete classifier that satisfies the probability contract. -/
theorem c4_score_bounds_witness :
    (0 : ℚ) ≤ zeroFeatures.entity_density
    ∧ ProbContract none trivialModel zeroFeatures
    ∧ (0 ≤ (rule_based_scoring zeroFeatures).score ∧ (rule_based_scoring zeroFeatures).score ≤ 100)
    ∧ (0 ≤ (ml_based_scoring none trivialModel zeroFeatures).score
        ∧ (ml_based_scoring none trivialModel zeroFeatures).score ≤ 100) := by
  have hd : (0 : ℚ) ≤ zeroFeatures.entity_density := by norm_num [zeroFeatures]
  have hp : ProbContract none trivialModel zeroFeatures := by
    refine ⟨?_, ?_, ?_, ?_⟩ <;> norm_num [trivialModel, scaledArray]
  exact ⟨hd, hp, c4_score_bounds.1 zeroFeatures hd,
    c4_score_bounds.2 none trivialModel zeroFeatures hp⟩

/-- C5: after a failed artifact load at startup, the service state is
rule-based and every scoring call in the rest of the process lifetime
returns the rule-based result (hence confidence 0.75) and leaves the
state unchanged — there is no retry. -/
theorem c5_permanent_rule_based (features_list : List Features) :
    (runCalls (loadModelState none) features_list).1 = features_list.map rule_based_scoring
    ∧ (runCalls (loadModelState none) features_list).2 = loadModelState none
    ∧ ((runCalls (loadModelState none) features_list).1.all
        fun r => r.confidence == 0.75) = true := by
  have key : ∀ fs : List Features,
      (runCalls (loadModelState none) fs).1 = fs.map rule_based_scoring
      ∧ (runCalls (loadModelState none) fs).2 = loadModelState none := by
    intro fs
    induction fs with
    | nil => exact ⟨rfl, rfl⟩
    | cons f t ih =>
      refine ⟨?_, ?_⟩
      · show calculate_risk_score (loadModelState none) f
            :: (runCalls (loadModelState none) t).1
          = rule_based_scoring f :: t.map rule_based_scoring
        rw [ih.1]
        rfl
      · show (runCalls (loadModelState none) t).2 = loadModelState none
        exact ih.2
  refine ⟨(key features_list).1, (key features_list).2, ?_⟩
  rw [(key features_list).1, List.all_eq_true]
  intro r hr
  rw [List.mem_map] at hr
  obtain ⟨x, -, hx⟩ := hr
  rw [← hx]
  have hc : (rule_based_scoring x).confidence = (0.75 : ℚ) := rfl
  rw [hc]
  simp

/-- C6: the entity list returned by detect_pii is sorted non-decreasing by
start, and for every start value the entities carrying it appear in
exactly the order of the combined pre-sort list (Presidio results first,
then spaCy results) — the sort is stable, so all Backend A results
precede any Backend B result at the same start. -/
theorem c6_detect_sorted_stable (text : List Char) (presidio : Option (List PresidioResult))
    (spacy : Option (List SpacyEnt)) :
    List.Sorted startLE (detect_pii text presidio spacy)
    ∧ ∀ s : Nat, (detect_pii text presidio spacy).filter (fun e => e.start == s)
        = (combined_entities text presidio spacy).filter (fun e => e.start == s) :=
  ⟨List.sorted_insertionSort startLE _, fun s => filter_insertionSort s _⟩

theorem generate_eq_gemini {outcomes : LLMOutcomes} {text : String}
    {pii_entities : List PIIEntity} {risk_level : RiskLevel} {r : List String}
    (h : geminiTier outcomes = some r) :
    generate_recommendations outcomes text pii_entities risk_level = r := by
  unfold generate_recommendations
  rw [h]

theorem generate_eq_openai {outcomes : LLMOutcomes} {text : String}
    {pii_entities : List PIIEntity} {risk_level : RiskLevel} {c : String}
    (hg : geminiTier outcomes = none) (ha : outcomes.openaiAvailable = true)
    (hc : outcomes.openaiResponse = some c) :
    generate_recommendations outcomes text pii_entities risk_level
      = parse_recommendations c := by
  unfold generate_recommendations
  rw [hg]
  simp [ha, hc]

theorem generate_eq_fallback {outcomes : LLMOutcomes} {text : String}
    {pii_entities : List PIIEntity} {risk_level : RiskLevel}
    (hg : geminiTier outcomes = none)
    (h : outcomes.openaiAvailable = false ∨ outcomes.openaiResponse = none) :
    generate_recommendations outcomes text pii_entities risk_level
      = fallback_recommendations pii_entities risk_level := by
  unfold generate_recommendations
  rw [hg]
  rcases h with h | h
  · simp [h]
  · by_cases ha : outcomes.openaiAvailable
    · simp [ha, h]
    · simp [ha]

/-- C7 counterexample: with Gemini configured and returning the non-empty
text "The text is risky overall" (which contains no line starting with a
digit, dash or bullet), the parsed list is empty and is returned as the
final result — the "empty or invalid output falls through" part of the
claim is false, since the static tier (which always yields at least one
item) is never reached. -/
theorem c7_counterexample :
    generate_recommendations ⟨true, some "The text is risky overall", false, none⟩ ""
        [] RiskLevel.LOW = []
    ∧ 1 ≤ (fallback_recommendations [] RiskLevel.LOW).length := by
  constructor
  · rfl
  · decide

/-- C7 (amended): recommend always returns at most 5 items and (being a
total function of the provider outcomes) never raises; an exception or an
empty stripped response from Gemini falls through to OpenAI, and an
OpenAI exception or unavailability falls through to the static tier,
which returns between 1 and 5 items — but a non-empty Gemini response
parsing to zero items, or any non-raising OpenAI response, is returned
as-is, possibly as an empty list. -/
theorem c7_recommend_cap_and_fallback (outcomes : LLMOutcomes) (text : String)
    (pii_entities : List PIIEntity) (risk_level : RiskLevel) :
    (generate_recommendations outcomes text pii_entities risk_level).length ≤ 5
    ∧ (geminiTier outcomes = none →
        (outcomes.openaiAvailable = false ∨ outcomes.openaiResponse = none) →
        generate_recommendations outcomes text pii_entities risk_level
          = fallback_recommendations pii_entities risk_level
        ∧ 1 ≤ (fallback_recommendations pii_entities risk_level).length) := by
  constructor
  · cases hg : geminiTier outcomes with
    | some r =>
      rw [generate_eq_gemini hg]
      exact geminiTier_length hg
    | none =>
      by_cases ha : outcomes.openaiAvailable
      · cases ho : outcomes.openaiResponse with
        | some c =>
          rw [generate_eq_openai hg ha ho]
          exact parse_recommendations_le_five c
        | none =>
          rw [generate_eq_fallback hg (Or.inr ho)]
          exact (fallback_recommendations_length _ _).2
      · have ha' : outcomes.openaiAvailable = false := by simpa using ha
        rw [generate_eq_fallback hg (Or.inl ha')]
        exact (fallback_recommendations_length _ _).2
  · intro hg ho
    exact ⟨generate_eq_fallback hg ho, (fallback_recommendations_length _ _).1⟩

/-- C7 witness: with no provider configured, recommend returns the static
fallback, which has between 1 and 5 items. -/
theorem c7_recommend_cap_and_fallback_witness :
    geminiTier ⟨false, none, false, none⟩ = none
    ∧ generate_recommendations ⟨false, none, false, none⟩ "" [] RiskLevel.LOW
        = fallback_recommendations [] RiskLevel.LOW
    ∧ 1 ≤ (fallback_recommendations [] RiskLevel.LOW).length
    ∧ (generate_recommendations ⟨false, none, false, none⟩ "" [] RiskLevel.LOW).length ≤ 5 := by
  have h := c7_recommend_cap_and_fallback ⟨false, none, false, none⟩ "" [] RiskLevel.LOW
  have h2 := h.2 rfl (Or.inl rfl)
  exact ⟨rfl, h2.1, h2.2, h.1⟩

/-- C8: in the analysis route, the safe_rewrite field is populated exactly
when the includeRewrite flag is set and at least one entity was detected;
in every other case it is `none` and the rewrite function is never
invoked (the result does not depend on `rewriteFn` in those cases). -/
theorem c8_rewrite_gating (outcomes : LLMOutcomes)
    (rewriteFn : String → List PIIEntity → String) (state : MLState)
    (presidio : Option (List PresidioResult)) (spacy : Option (List SpacyEnt))
    (request : AnalyzeTextRequest) :
    (analyze_text outcomes rewriteFn state presidio spacy request).safe_rewrite
      = (if request.include_rewrite
            && decide (0 < (detect_pii request.text.toList presidio spacy).length) then
          some (rewriteFn request.text (detect_pii request.text.toList presidio spacy))
        else none)
    ∧ (analyze_text outcomes rewriteFn state presidio spacy request).safe_rewrite.isSome
        = (request.include_rewrite
            && !(detect_pii request.text.toList presidio spacy).isEmpty) := by
  constructor
  · rfl
  · cases hr : request.include_rewrite <;>
      cases hd : detect_pii request.text.toList presidio spacy <;>
        simp only [String.toList] at hd <;>
          simp [analyze_text, hr, hd]

/-- C9: the eight default weights sum to exactly 1; with every normalized
feature in [0,1] the weighted sum lies in [0,1], so the returned
ml_probability satisfies the schema bound [0,1], the `min(·, 100)` clamp
is the identity on the scaled score, and the stored score is exactly the
rounding of `weightedSum * 100` with no clamping. -/
theorem c9_weighted_sum_bounds (f : Features) (hd : 0 ≤ f.entity_density) :
    (FEATURE_WEIGHTS.map Prod.snd).sum = 1
    ∧ 0 ≤ weightedSum f ∧ weightedSum f ≤ 1
    ∧ min (weightedSum f * 100) 100 = weightedSum f * 100
    ∧ (rule_based_scoring f).ml_probability = weightedSum f
    ∧ 0 ≤ (rule_based_scoring f).ml_probability
    ∧ (rule_based_scoring f).ml_probability ≤ 1
    ∧ (rule_based_scoring f).score = roundTo2 (weightedSum f * 100) := by
  have h0 := weightedSum_nonneg f hd
  have h1 := weightedSum_le_one f
  have hsum : (FEATURE_WEIGHTS.map Prod.snd).sum = 1 := by
    norm_num [FEATURE_WEIGHTS]
  have hmin : min (weightedSum f * 100) 100 = weightedSum f * 100 :=
    min_eq_left (by linarith)
  refine ⟨hsum, h0, h1, hmin, rfl, ?_, ?_, ?_⟩
  · rw [rule_based_score_eq_weightedSum]
    exact h0
  · rw [rule_based_score_eq_weightedSum]
    exact h1
  · have hs : (rule_based_scoring f).score = roundTo2 (min (weightedSum f * 100) 100) := rfl
    rw [hs, hmin]

/-- C9 witness: the bounds evaluated at the all-zero feature vector. -/
theorem c9_weighted_sum_bounds_witness :
    (0 : ℚ) ≤ zeroFeatures.entity_density
    ∧ ((FEATURE_WEIGHTS.map Prod.snd).sum = 1
      ∧ 0 ≤ weightedSum zeroFeatures ∧ weightedSum zeroFeatures ≤ 1
      ∧ min (weightedSum zeroFeatures * 100) 100 = weightedSum zeroFeatures * 100
      ∧ (rule_based_scoring zeroFeatures).ml_probability = weightedSum zeroFeatures
      ∧ 0 ≤ (rule_based_scoring zeroFeatures).ml_probability
      ∧ (rule_based_scoring zeroFeatures).ml_probability ≤ 1
      ∧ (rule_based_scoring zeroFeatures).score = roundTo2 (weightedSum zeroFeatures * 100)) := by
  have hd : (0 : ℚ) ≤ zeroFeatures.entity_density := by norm_num [zeroFeatures]
  exact ⟨hd, c9_weighted_sum_bounds zeroFeatures hd⟩

/-- C10: in trained-classifier mode, under the probability contract, the
score `p0*25 + p1*60 + p2*100` has floor 25, so the returned score is at
least 25 even for an input the classifier judges certainly LOW. -/
theorem c10_ml_score_floor (scaler : Option (List ℚ → List ℚ)) (model : TrainedModel)
    (f : Features) (hp : ProbContract scaler model f) :
    25 ≤ (ml_based_scoring scaler model f).score := by
  obtain ⟨h0, h1, h2, hsum⟩ := hp
  have hs : (ml_based_scoring scaler model f).score
      = roundTo2 ((model.predict_proba (scaledArray scaler f)).1 * 25
          + (model.predict_proba (scaledArray scaler f)).2.1 * 60
          + (model.predict_proba (scaledArray scaler f)).2.2 * 100) := rfl
  rw [hs]
  have hblend : (25 : ℚ) ≤ (model.predict_proba (scaledArray scaler f)).1 * 25
      + (model.predict_proba (scaledArray scaler f)).2.1 * 60
      + (model.predict_proba (scaledArray scaler f)).2.2 * 100 := by nlinarith
  have hr := intCast_le_roundTo2 (n := 25) (by exact_mod_cast hblend)
  exact_mod_cast hr

/-- C10 witness: the floor evaluated at a concrete classifier that is
certain of LOW, where the score is exactly 25. -/
theorem c10_ml_score_floor_witness :
    ProbContract none trivialModel zeroFeatures
    ∧ 25 ≤ (ml_based_scoring none trivialModel zeroFeatures).score := by
  have hp : ProbContract none trivialModel zeroFeatures := by
    refine ⟨?_, ?_, ?_, ?_⟩ <;> norm_num [trivialModel, scaledArray]
  exact ⟨hp, c10_ml_score_floor none trivialModel zeroFeatures hp⟩
